import Mathlib

/-!
Verification of the calculation core of `src/BMI_calculator.py`.

The Python source computes over IEEE floats; we embed the arithmetic over ℚ,
which is exact on every decimal constant appearing in the source.  Python's
built-in `round` rounds half to even (banker's rounding); `roundHalfEven`
models it, and `round1` models `round(x, 1)` as well as the `:.1f` format
used for the weight goal.  Unit-system and gender parameters are strings in
the source (`unit == 'Imperial'`, `gender == 'Male'`) and stay strings here.
-/

/-- Python `round(q)`: nearest integer, ties to even. -/
def roundHalfEven (q : ℚ) : ℤ :=
  if Int.fract q < 1/2 then ⌊q⌋
  else if 1/2 < Int.fract q then ⌊q⌋ + 1
  else if ⌊q⌋ % 2 = 0 then ⌊q⌋ else ⌊q⌋ + 1

/-- Python `round(q, 1)`: round to one decimal place, ties to even. -/
def round1 (q : ℚ) : ℚ :=
  (roundHalfEven (10 * q) : ℚ) / 10

/-- `calculate_bmi(weight, height, unit)` from `src/BMI_calculator.py`
(lines 72-84): if `unit == 'Imperial'` convert pounds→kg and inches→m,
otherwise take the weight in kg and convert cm→m, then return
`round(weight_kg / height_m ** 2, 1)`. -/
def calculate_bmi (weight height : ℚ) (unit : String) : ℚ :=
  let weight_kg := if unit = "Imperial" then weight * 0.453592 else weight
  let height_m := if unit = "Imperial" then height * 0.0254 else height / 100
  round1 (weight_kg / height_m ^ 2)

/-- `get_bmi_category(bmi)` from `src/BMI_calculator.py` (lines 86-95). -/
def get_bmi_category (bmi : ℚ) : String :=
  if bmi < 18.5 then "Underweight"
  else if bmi < 25 then "Normal Weight"
  else if bmi < 30 then "Overweight"
  else "Obese"

/-- `get_bmi_color(bmi)` from `src/BMI_calculator.py` (lines 97-106). -/
def get_bmi_color (bmi : ℚ) : String :=
  if bmi < 18.5 then "#3182ce"
  else if bmi < 25 then "#38a169"
  else if bmi < 30 then "#d69e2e"
  else "#e53e3e"

/-- `calculate_ideal_weight(height, gender, unit)` from `src/BMI_calculator.py`
(lines 108-119): Devine formula; any gender other than `'Male'` takes the
female branch, any unit other than `'Imperial'` is treated as centimetres. -/
def calculate_ideal_weight (height : ℚ) (gender unit : String) : ℤ :=
  let height_cm := if unit = "Imperial" then height * 2.54 else height
  let ideal_weight :=
    if gender = "Male" then 50 + (2.3 * ((height_cm - 152.4) / 2.54))
    else 45.5 + (2.3 * ((height_cm - 152.4) / 2.54))
  if unit = "Imperial" then roundHalfEven (ideal_weight * 2.20462)
  else roundHalfEven ideal_weight

/-- `calculate_bmr(weight, height, age, gender, unit)` from
`src/BMI_calculator.py` (lines 121-131): Mifflin-St Jeor equation. -/
def calculate_bmr (weight height age : ℚ) (gender unit : String) : ℤ :=
  let weight_kg := if unit = "Imperial" then weight * 0.453592 else weight
  let height_cm := if unit = "Imperial" then height * 2.54 else height
  let bmr :=
    if gender = "Male" then 10 * weight_kg + 6.25 * height_cm - 5 * age + 5
    else 10 * weight_kg + 6.25 * height_cm - 5 * age - 161
  roundHalfEven bmr

/-- `get_recommendations(bmi_category, age, gender)` from
`src/BMI_calculator.py` (lines 133-162).  The `age` and `gender` parameters
are accepted but never read. -/
def get_recommendations (bmi_category : String) (age : ℚ) (gender : String) :
    List String :=
  if bmi_category = "Underweight" then
    ["🍽️ Focus on nutrient-dense, calorie-rich foods like nuts, seeds, avocados, and lean proteins",
     "💪 Include strength training exercises to build muscle mass along with cardiovascular fitness",
     "👨‍⚕️ Consider consulting with a nutritionist to develop a healthy weight gain plan"]
  else if bmi_category = "Normal Weight" then
    ["⚖️ Maintain your current healthy lifestyle with balanced nutrition and regular exercise",
     "🏃‍♂️ Continue with 150 minutes of moderate aerobic activity or 75 minutes vigorous activity weekly",
     "🍎 Focus on whole foods, fruits, vegetables, lean proteins, and whole grains"]
  else if bmi_category = "Overweight" then
    ["📈 Aim for gradual weight loss of 1-2 pounds per week through caloric deficit",
     "🚴‍♂️ Increase physical activity to 300+ minutes of moderate exercise per week",
     "🥕 Focus on portion control and include more vegetables, lean proteins, and whole grains"]
  else
    ["👨‍⚕️ Consult with a healthcare provider to develop a comprehensive weight management plan",
     "❤️ Start with low-impact exercises and gradually increase intensity as fitness improves",
     "📅 Consider working with a registered dietitian for personalized meal planning"]

/-- Direction of the weight goal shown by the app: the sign prefix of the
`weight_goal` f-string in `src/BMI_calculator.py` (lines 271, 278) or the
"Maintain current weight" message (line 280). -/
inductive Direction
  | Gain
  | Lose
  | Maintain
deriving DecidableEq, Repr

/-- The weight-goal block of `src/BMI_calculator.py` (lines 264-280).  The
source renders a string `f"+{abs(target_weight - weight):.1f} ..."` /
`f"-{abs(weight - target_weight):.1f} ..."` / `"Maintain current weight"`;
we model the sign prefix as a `Direction` and the `:.1f`-formatted magnitude
as `round1` of the absolute difference (0 for the maintain message). -/
def weight_goal (category : String) (weight height : ℚ) (unit : String) :
    Direction × ℚ :=
  if category = "Underweight" then
    let target_weight :=
      if unit = "Metric" then 18.5 * (height / 100) ^ 2
      else 18.5 * (height * 0.0254) ^ 2 * 2.20462
    (Direction.Gain, round1 |target_weight - weight|)
  else if category = "Overweight" ∨ category = "Obese" then
    let target_weight :=
      if unit = "Metric" then 24.9 * (height / 100) ^ 2
      else 24.9 * (height * 0.0254) ^ 2 * 2.20462
    (Direction.Lose, round1 |weight - target_weight|)
  else
    (Direction.Maintain, 0)

/-! Basic facts about the rounding model. -/

theorem le_roundHalfEven (q : ℚ) : ⌊q⌋ ≤ roundHalfEven q := by
  unfold roundHalfEven
  split_ifs <;> omega

theorem roundHalfEven_le_succ (q : ℚ) : roundHalfEven q ≤ ⌊q⌋ + 1 := by
  unfold roundHalfEven
  split_ifs <;> omega

/-- When `q` is closer to `f` from above than half a unit, Python rounding
returns `f`. -/
theorem roundHalfEven_eq_down (q : ℚ) (f : ℤ) (h1 : (f : ℚ) ≤ q)
    (h2 : 2 * q < 2 * f + 1) : roundHalfEven q = f := by
  have hfl : ⌊q⌋ = f := Int.floor_eq_iff.mpr ⟨h1, by push_cast; linarith⟩
  have hfr : Int.fract q < 1 / 2 := by
    rw [Int.fract, hfl]; push_cast; linarith
  unfold roundHalfEven
  rw [if_pos hfr, hfl]

/-- When `q` is strictly above the halfway point between `f` and `f + 1`,
Python rounding returns `f + 1`. -/
theorem roundHalfEven_eq_up (q : ℚ) (f : ℤ) (h1 : 2 * f + 1 < 2 * q)
    (h2 : q < f + 1) : roundHalfEven q = f + 1 := by
  have hfl : ⌊q⌋ = f := by
    refine Int.floor_eq_iff.mpr ⟨by push_cast; linarith, by push_cast; linarith⟩
  have hfr : 1 / 2 < Int.fract q := by
    rw [Int.fract, hfl]; push_cast; linarith
  unfold roundHalfEven
  rw [if_neg (by linarith), if_pos hfr, hfl]

theorem roundHalfEven_mono {a b : ℚ} (hab : a ≤ b) :
    roundHalfEven a ≤ roundHalfEven b := by
  rcases lt_or_eq_of_le (Int.floor_mono hab) with h | h
  · have h1 := roundHalfEven_le_succ a
    have h2 := le_roundHalfEven b
    omega
  · have hfr : Int.fract a ≤ Int.fract b := by
      simp only [Int.fract]
      rw [h]
      have : (⌊b⌋ : ℚ) ≤ ⌊b⌋ := le_refl _
      linarith
    unfold roundHalfEven
    rw [h]
    split_ifs <;> first | omega | linarith

theorem round1_mono {a b : ℚ} (hab : a ≤ b) : round1 a ≤ round1 b := by
  unfold round1
  have h10 : (10 : ℚ) * a ≤ 10 * b := by linarith
  have h := roundHalfEven_mono h10
  have h' : (roundHalfEven (10 * a) : ℚ) ≤ (roundHalfEven (10 * b) : ℚ) := by
    exact_mod_cast h
  linarith

/-- C1: for every positive weight and height, `calculate_bmi(weight, height,
unit)` returns weightKg / heightM² rounded to one decimal place, where for
Metric input weightKg = weight and heightM = height / 100, and for Imperial
input weightKg = weight × 0.453592 and heightM = height × 0.0254; in
particular `calculate_bmi(70, 175, Metric) = 22.9`. -/
theorem calculate_bmi_spec (weight height : ℚ) (unit : String)
    (hw : 0 < weight) (hh : 0 < height) :
    (unit = "Imperial" →
      calculate_bmi weight height unit =
        round1 ((weight * 0.453592) / (height * 0.0254) ^ 2)) ∧
    (unit = "Metric" →
      calculate_bmi weight height unit =
        round1 (weight / (height / 100) ^ 2)) ∧
    calculate_bmi 70 175 "Metric" = 22.9 := by
  refine ⟨?_, ?_, ?_⟩
  · intro hu
    subst hu
    simp [calculate_bmi]
  · intro hu
    subst hu
    simp [calculate_bmi]
  · have h1 : calculate_bmi 70 175 "Metric" = round1 (160 / 7) := by
      simp only [calculate_bmi]
      norm_num [show ("Metric" : String) ≠ "Imperial" by decide]
    rw [h1, round1]
    rw [show (10 : ℚ) * (160 / 7) = 1600 / 7 by norm_num]
    rw [roundHalfEven_eq_up (1600 / 7) 228 (by norm_num) (by norm_num)]
    norm_num

/-- Closed witness for `calculate_bmi_spec` at weight 70, height 175. -/
theorem calculate_bmi_spec_witness :
    calculate_bmi 70 175 "Metric" = 22.9 :=
  (calculate_bmi_spec 70 175 "Metric" (by norm_num) (by norm_num)).2.2

/-- C2: `get_bmi_category(bmi)` returns Underweight iff bmi < 18.5, Normal
Weight iff 18.5 ≤ bmi < 25, Overweight iff 25 ≤ bmi < 30, and Obese iff
bmi ≥ 30; each boundary value belongs to the upper category, in particular
18.5 ↦ Normal Weight, 25 ↦ Overweight, 30 ↦ Obese. -/
theorem get_bmi_category_spec (bmi : ℚ) :
    (get_bmi_category bmi = "Underweight" ↔ bmi < 18.5) ∧
    (get_bmi_category bmi = "Normal Weight" ↔ 18.5 ≤ bmi ∧ bmi < 25) ∧
    (get_bmi_category bmi = "Overweight" ↔ 25 ≤ bmi ∧ bmi < 30) ∧
    (get_bmi_category bmi = "Obese" ↔ 30 ≤ bmi) ∧
    get_bmi_category 18.5 = "Normal Weight" ∧
    get_bmi_category 25 = "Overweight" ∧
    get_bmi_category 30 = "Obese" := by
  refine ⟨?_, ?_, ?_, ?_, ?_, ?_, ?_⟩ <;>
    unfold get_bmi_category <;>
    split_ifs <;>
    simp_all <;>
    first
      | linarith
      | (constructor <;> linarith)
      | (intro hx; linarith)
      | (intro hx hy; linarith)

/-- C3 counterexample: invoked with weight = -1 ≤ 0, `calculate_bmr` does not
raise any error; it evaluates the Mifflin-St Jeor formula on the invalid
input and returns 939 (10·(-1) + 6.25·171 - 5·25 + 5 = 938.75 → 939). -/
theorem calculate_bmr_no_error_on_nonpositive_weight :
    calculate_bmr (-1) 171 25 "Male" "Metric" = 939 := by
  have h1 : calculate_bmr (-1) 171 25 "Male" "Metric" =
      roundHalfEven (3755 / 4) := by
    simp only [calculate_bmr]
    norm_num [show ("Metric" : String) ≠ "Imperial" by decide]
  rw [h1, roundHalfEven_eq_up (3755 / 4) 938 (by norm_num) (by norm_num)]
  norm_num

/-- C3 (amended): none of the calculators validates its inputs.  For any
weight/height/age (including nonpositive values) and any unit or gender
string outside the enumerated sets, the formula is evaluated unconditionally
(a unit other than `'Imperial'` is treated as Metric, a gender other than
`'Male'` takes the female branch); no error value exists. -/
theorem calculators_no_validation (weight height age : ℚ) (gender unit : String)
    (hbad : weight ≤ 0 ∨ height ≤ 0 ∨ age ≤ 0 ∨
      (unit ≠ "Metric" ∧ unit ≠ "Imperial") ∨
      (gender ≠ "Male" ∧ gender ≠ "Female")) :
    calculate_bmi weight height unit =
      round1 ((if unit = "Imperial" then weight * 0.453592 else weight) /
        (if unit = "Imperial" then height * 0.0254 else height / 100) ^ 2) ∧
    calculate_ideal_weight height gender unit =
      (if unit = "Imperial" then
        roundHalfEven ((if gender = "Male" then
            50 + 2.3 * ((height * 2.54 - 152.4) / 2.54)
          else 45.5 + 2.3 * ((height * 2.54 - 152.4) / 2.54)) * 2.20462)
      else
        roundHalfEven (if gender = "Male" then
            50 + 2.3 * ((height - 152.4) / 2.54)
          else 45.5 + 2.3 * ((height - 152.4) / 2.54))) ∧
    calculate_bmr weight height age gender unit =
      roundHalfEven (if gender = "Male" then
          10 * (if unit = "Imperial" then weight * 0.453592 else weight) +
            6.25 * (if unit = "Imperial" then height * 2.54 else height) -
            5 * age + 5
        else
          10 * (if unit = "Imperial" then weight * 0.453592 else weight) +
            6.25 * (if unit = "Imperial" then height * 2.54 else height) -
            5 * age - 161) := by
  refine ⟨?_, ?_, ?_⟩
  · simp only [calculate_bmi]
  · simp only [calculate_ideal_weight]
    split_ifs <;> rfl
  · simp only [calculate_bmr]

/-- Closed witness for `calculators_no_validation` at weight -1 ≤ 0. -/
theorem calculators_no_validation_witness :
    calculate_bmi (-1) 171 "Metric" =
      round1 ((if ("Metric" : String) = "Imperial" then (-1) * 0.453592
          else (-1 : ℚ)) /
        (if ("Metric" : String) = "Imperial" then 171 * 0.0254
          else (171 : ℚ) / 100) ^ 2) ∧
    calculate_ideal_weight 171 "Male" "Metric" =
      (if ("Metric" : String) = "Imperial" then
        roundHalfEven ((if ("Male" : String) = "Male" then
            50 + 2.3 * (((171 : ℚ) * 2.54 - 152.4) / 2.54)
          else 45.5 + 2.3 * (((171 : ℚ) * 2.54 - 152.4) / 2.54)) * 2.20462)
      else
        roundHalfEven (if ("Male" : String) = "Male" then
            50 + 2.3 * (((171 : ℚ) - 152.4) / 2.54)
          else 45.5 + 2.3 * (((171 : ℚ) - 152.4) / 2.54))) ∧
    calculate_bmr (-1) 171 25 "Male" "Metric" =
      roundHalfEven (if ("Male" : String) = "Male" then
          10 * (if ("Metric" : String) = "Imperial" then (-1) * 0.453592
              else (-1 : ℚ)) +
            6.25 * (if ("Metric" : String) = "Imperial" then 171 * 2.54
              else (171 : ℚ)) - 5 * 25 + 5
        else
          10 * (if ("Metric" : String) = "Imperial" then (-1) * 0.453592
              else (-1 : ℚ)) +
            6.25 * (if ("Metric" : String) = "Imperial" then 171 * 2.54
              else (171 : ℚ)) - 5 * 25 - 161) :=
  calculators_no_validation (-1) 171 25 "Male" "Metric" (Or.inl (by norm_num))

/-- C4: the weight goal is Gain with magnitude |18.5·heightM² (converted to
pounds for Imperial input) − weight| rounded to one decimal for an
Underweight category, Lose with magnitude |weight − 24.9·heightM²
(converted)| rounded to one decimal for Overweight or Obese, and Maintain
for Normal Weight; in particular Underweight at 50 kg, 170 cm gives
magnitude 3.5. -/
theorem weight_goal_spec (weight height : ℚ) :
    (weight_goal "Underweight" weight height "Metric" =
      (Direction.Gain, round1 |18.5 * (height / 100) ^ 2 - weight|)) ∧
    (weight_goal "Underweight" weight height "Imperial" =
      (Direction.Gain,
        round1 |18.5 * (height * 0.0254) ^ 2 * 2.20462 - weight|)) ∧
    (weight_goal "Overweight" weight height "Metric" =
      (Direction.Lose, round1 |weight - 24.9 * (height / 100) ^ 2|)) ∧
    (weight_goal "Overweight" weight height "Imperial" =
      (Direction.Lose,
        round1 |weight - 24.9 * (height * 0.0254) ^ 2 * 2.20462|)) ∧
    (weight_goal "Obese" weight height "Metric" =
      (Direction.Lose, round1 |weight - 24.9 * (height / 100) ^ 2|)) ∧
    (weight_goal "Obese" weight height "Imperial" =
      (Direction.Lose,
        round1 |weight - 24.9 * (height * 0.0254) ^ 2 * 2.20462|)) ∧
    (weight_goal "Normal Weight" weight height "Metric" =
      (Direction.Maintain, 0)) ∧
    (weight_goal "Normal Weight" weight height "Imperial" =
      (Direction.Maintain, 0)) ∧
    weight_goal "Underweight" 50 170 "Metric" = (Direction.Gain, 3.5) := by
  refine ⟨by simp [weight_goal], by simp [weight_goal], by simp [weight_goal],
    by simp [weight_goal], by simp [weight_goal], by simp [weight_goal],
    by simp [weight_goal], by simp [weight_goal], ?_⟩
  have h1 : weight_goal "Underweight" 50 170 "Metric" =
      (Direction.Gain, round1 (693 / 200)) := by
    simp only [weight_goal]
    norm_num
    rw [abs_of_nonneg (by norm_num : (0 : ℚ) ≤ 693 / 200)]
  rw [h1, round1]
  rw [show (10 : ℚ) * (693 / 200) = 693 / 20 by norm_num]
  rw [roundHalfEven_eq_up (693 / 20) 34 (by norm_num) (by norm_num)]
  norm_num

/-- C5: `calculate_ideal_weight` evaluates the Devine formula (male constant
50, female constant 45.5) on the height in centimetres, converts to pounds
by × 2.20462 before rounding to the nearest integer when the unit is
Imperial, and rounds directly when Metric; in particular 170 cm, Male,
Metric gives 66. -/
theorem calculate_ideal_weight_spec (height : ℚ) (gender : String)
    (hh : 0 < height) (hg : gender = "Male" ∨ gender = "Female") :
    (calculate_ideal_weight height gender "Metric" =
      roundHalfEven (if gender = "Male" then
          50 + 2.3 * ((height - 152.4) / 2.54)
        else 45.5 + 2.3 * ((height - 152.4) / 2.54))) ∧
    (calculate_ideal_weight height gender "Imperial" =
      roundHalfEven ((if gender = "Male" then
          50 + 2.3 * ((height * 2.54 - 152.4) / 2.54)
        else 45.5 + 2.3 * ((height * 2.54 - 152.4) / 2.54)) * 2.20462)) ∧
    calculate_ideal_weight 170 "Male" "Metric" = 66 := by
  refine ⟨?_, ?_, ?_⟩
  · simp only [calculate_ideal_weight]
    split_ifs <;> simp_all
  · simp only [calculate_ideal_weight]
    split_ifs <;> simp_all
  · have h1 : calculate_ideal_weight 170 "Male" "Metric" =
        roundHalfEven (8374 / 127) := by
      simp only [calculate_ideal_weight]
      norm_num [show ("Metric" : String) ≠ "Imperial" by decide]
    rw [h1, roundHalfEven_eq_up (8374 / 127) 65 (by norm_num) (by norm_num)]
    norm_num

/-- Closed witness for `calculate_ideal_weight_spec` at 170 cm, Male. -/
theorem calculate_ideal_weight_spec_witness :
    calculate_ideal_weight 170 "Male" "Metric" = 66 :=
  (calculate_ideal_weight_spec 170 "Male" (by norm_num) (Or.inl rfl)).2.2

/-- C6: for Metric input `calculate_bmr` returns the Mifflin-St Jeor value
10·weightKg + 6.25·heightCm − 5·age + 5 (Male) or − 161 (Female) rounded to
the nearest integer; in particular (70 kg, 175 cm, age 25, Male) gives
1674. -/
theorem calculate_bmr_spec (weight height age : ℚ)
    (hw : 0 < weight) (hh : 0 < height) (ha1 : 1 ≤ age) (ha2 : age ≤ 120) :
    (calculate_bmr weight height age "Male" "Metric" =
      roundHalfEven (10 * weight + 6.25 * height - 5 * age + 5)) ∧
    (calculate_bmr weight height age "Female" "Metric" =
      roundHalfEven (10 * weight + 6.25 * height - 5 * age - 161)) ∧
    calculate_bmr 70 175 25 "Male" "Metric" = 1674 := by
  refine ⟨?_, ?_, ?_⟩
  · simp [calculate_bmr]
  · simp [calculate_bmr]
  · have h1 : calculate_bmr 70 175 25 "Male" "Metric" =
        roundHalfEven (6695 / 4) := by
      simp only [calculate_bmr]
      norm_num [show ("Metric" : String) ≠ "Imperial" by decide]
    rw [h1, roundHalfEven_eq_up (6695 / 4) 1673 (by norm_num) (by norm_num)]
    norm_num

/-- Closed witness for `calculate_bmr_spec` at (70, 175, 25, Male). -/
theorem calculate_bmr_spec_witness :
    calculate_bmr 70 175 25 "Male" "Metric" = 1674 :=
  (calculate_bmr_spec 70 175 25 (by norm_num) (by norm_num) (by norm_num)
    (by norm_num)).2.2

/-- C7: with its rounding to one decimal included, `calculate_bmi` is
monotonically increasing (non-strictly) in the weight and monotonically
decreasing in the height, for positive inputs, in both unit systems. -/
theorem calculate_bmi_monotone (w1 w2 w h1 h2 h : ℚ) (unit : String)
    (hw1 : 0 < w1) (hw12 : w1 ≤ w2) (hh : 0 < h)
    (hw : 0 < w) (hh1 : 0 < h1) (hh12 : h1 ≤ h2) :
    calculate_bmi w1 h unit ≤ calculate_bmi w2 h unit ∧
    calculate_bmi w h2 unit ≤ calculate_bmi w h1 unit := by
  unfold calculate_bmi
  constructor
  · apply round1_mono
    split_ifs <;> gcongr
  · apply round1_mono
    split_ifs <;> gcongr

/-- Closed witness for `calculate_bmi_monotone` at (70 ≤ 71) kg and
(170 ≤ 175) cm. -/
theorem calculate_bmi_monotone_witness :
    calculate_bmi 70 175 "Metric" ≤ calculate_bmi 71 175 "Metric" ∧
    calculate_bmi 70 175 "Metric" ≤ calculate_bmi 70 170 "Metric" :=
  calculate_bmi_monotone 70 71 70 170 175 175 "Metric" (by norm_num)
    (by norm_num) (by norm_num) (by norm_num) (by norm_num) (by norm_num)

/-- C8: `get_recommendations(category, age, gender)` depends only on the
category; the age and gender arguments never change the returned list. -/
theorem get_recommendations_ignores_age_gender (category : String)
    (age1 age2 : ℚ) (gender1 gender2 : String) :
    get_recommendations category age1 gender1 =
      get_recommendations category age2 gender2 := rfl

/-- C9: any unit string other than `'Imperial'` is treated as Metric by
`calculate_bmi`, `calculate_ideal_weight` and `calculate_bmr`, and any
gender string other than `'Male'` takes the Female formula in
`calculate_ideal_weight` and `calculate_bmr`; no input is rejected. -/
theorem enum_fallbacks (weight height age : ℚ)
    (gender gender2 unit unit2 : String)
    (hu : unit ≠ "Imperial") (hg : gender ≠ "Male") :
    calculate_bmi weight height unit = calculate_bmi weight height "Metric" ∧
    calculate_ideal_weight height gender2 unit =
      calculate_ideal_weight height gender2 "Metric" ∧
    calculate_bmr weight height age gender2 unit =
      calculate_bmr weight height age gender2 "Metric" ∧
    calculate_ideal_weight height gender unit2 =
      calculate_ideal_weight height "Female" unit2 ∧
    calculate_bmr weight height age gender unit2 =
      calculate_bmr weight height age "Female" unit2 := by
  refine ⟨?_, ?_, ?_, ?_, ?_⟩ <;>
    simp [calculate_bmi, calculate_ideal_weight, calculate_bmr, hu, hg]

/-- Closed witness for `enum_fallbacks` with the out-of-set strings
`'foo'` and `'bar'`. -/
theorem enum_fallbacks_witness :
    calculate_bmi 70 175 "foo" = calculate_bmi 70 175 "Metric" ∧
    calculate_ideal_weight 175 "Female" "foo" =
      calculate_ideal_weight 175 "Female" "Metric" ∧
    calculate_bmr 70 175 25 "Female" "foo" =
      calculate_bmr 70 175 25 "Female" "Metric" ∧
    calculate_ideal_weight 175 "bar" "Metric" =
      calculate_ideal_weight 175 "Female" "Metric" ∧
    calculate_bmr 70 175 25 "bar" "Metric" =
      calculate_bmr 70 175 25 "Female" "Metric" :=
  enum_fallbacks 70 175 25 "bar" "Female" "foo" "Metric" (by decide)
    (by decide)

/-- Color attached to each BMI category label, as listed in the claim
(refinement side of C10). -/
def categoryColor (category : String) : String :=
  if category = "Underweight" then "#3182ce"
  else if category = "Normal Weight" then "#38a169"
  else if category = "Overweight" then "#d69e2e"
  else "#e53e3e"

/-- C10: `get_bmi_color` and `get_bmi_category` cut the number line at the
same thresholds 18.5, 25, 30, so the color always equals the one assigned
to the category (Underweight #3182ce, Normal Weight #38a169, Overweight
#d69e2e, Obese #e53e3e). -/
theorem get_bmi_color_matches_category (bmi : ℚ) :
    get_bmi_color bmi = categoryColor (get_bmi_category bmi) := by
  unfold get_bmi_color get_bmi_category categoryColor
  split_ifs <;> simp_all

